import Mathlib

/-!
Shallow embedding of `src/js/glecko-menu.js` (the slide-out menu widget of
glebo309.github.io) together with the page's initial DOM state from the
bundled `index.html`.

The widget is single-threaded and timer-driven: `openMenu` / `closeMenu`
set guard flags synchronously and schedule their remaining phases through
nested `setTimeout` calls.  We model the DOM/controller state as a record
and each scheduled callback as an explicit phase; at most one transition
timer is outstanding at a time (the `isTransitioning` guard blocks any new
transition while one is in flight), so the pending transition callback is
an `Option Phase` field.  Scroll-effect plumbing (debounce handler, hook
invocation with property override, per-element video-effect pass) is
modelled by separate small functions mirroring the corresponding source
functions.
-/

namespace GleckoMenu

/-- Class-name constants used by the widget (`glecko-menu.js`). -/
def modalviewCls : String := "perspective--modalview"

/-- The `effect-rotate-left` marker class ("rotation-armed"). -/
def rotateCls : String := "effect-rotate-left"

/-- The `effect-rotate-left--animate` marker class ("rotation-animate"). -/
def animateCls : String := "effect-rotate-left--animate"

/-- The stray `modalview` class name that `openMenu` also removes. -/
def strayModalCls : String := "modalview"

/-- jQuery `removeClass` with a space-separated list of class names:
every occurrence of each listed class is removed. -/
def removeClasses (cs : List String) (toRemove : List String) : List String :=
  cs.filter (fun x => !toRemove.contains x)

/-- jQuery `addClass` for one class name: appends it unless present. -/
def addClass (cs : List String) (c : String) : List String :=
  if cs.contains c then cs else cs ++ [c]

/-- jQuery `addClass` with a space-separated list of class names. -/
def addClasses (cs : List String) (toAdd : List String) : List String :=
  toAdd.foldl addClass cs

/-- The deferred phases of the open/close transitions: each constructor is
one `setTimeout` callback in `openMenu` / `closeMenu`.
`openP1` = 50 ms callback, `openP2` = nested 100 ms callback,
`openP3` = nested 200 ms callback, `closeP1` = 400 ms callback,
`closeP2` = nested 100 ms callback. -/
inductive Phase where
  | openP1 | openP2 | openP3 | closeP1 | closeP2
deriving DecidableEq, Repr

/-- Controller + relevant DOM state of the widget.

`docScroll` is the document scroll offset (`window.scrollY` =
`window.pageYOffset` = `document.documentElement.scrollTop`, all one value
here).  `modalScroll` is `scrollTop` of the `.perspective` element (read
and written through the `.perspective--modalview` selector, which only
matches while that class is present).  `perspStyle` / `contStyle` are the
inline `style` attributes of `.perspective` / `.page-container`
(`none` = attribute absent).  `savedPerspStyle` / `savedContStyle` hold
the strings captured by the 400 ms close callback
(`$el.attr('style') || ''`).  `pending` is the outstanding transition
timer, `fxPassPending` the 200 ms initial effect pass scheduled by
`setupScrollEffects`, and `effectsPassCount` counts completed effect
passes. -/
structure MenuState where
  isMenuOpen : Bool
  isTransitioning : Bool
  storedScrollPosition : Int
  docScroll : Int
  modalScroll : Int
  perspectiveClasses : List String
  navVis : Bool
  perspStyle : Option String
  contStyle : Option String
  savedPerspStyle : String
  savedContStyle : String
  pending : Option Phase
  scrollFxAttached : Bool
  fxPassPending : Bool
  effectsPassCount : Nat
deriving DecidableEq, Repr

/-- Inline style written to `.perspective` by the "nuclear option" step of
the 400 ms close callback. -/
def nuclearPerspStyle : String :=
  "transform: none !important; perspective: none !important; transform-style: flat !important"

/-- Inline style written to `.page-container` by the same step. -/
def nuclearContStyle : String :=
  "transform: none !important; transform-origin: initial !important; backface-visibility: visible !important"

/-- jQuery `.css(props)` merges the given properties into the element's
existing inline style attribute.  The textual result is modelled as
concatenation; only the later overwrite-or-remove restore step matters to
the claims. -/
def mergeCss (orig add : String) : String :=
  if orig = "" then add else orig ++ "; " ++ add

/-- Function `closeMenu` (lines 6–79): guard on `isTransitioning`; capture the
overlay scroll offset (`$('.perspective--modalview').scrollTop() || 0`,
which reads 0 when the selector matches nothing); detach the scroll
listener; drop the `is-vis` classes and the rotation-animate class;
schedule the 400 ms phase. -/
def closeMenu (s : MenuState) : MenuState :=
  if s.isTransitioning then s else
  let modalRead : Int :=
    if s.perspectiveClasses.contains modalviewCls then s.modalScroll else 0
  { s with
    isTransitioning := true
    isMenuOpen := false
    storedScrollPosition := modalRead
    scrollFxAttached := false
    navVis := false
    perspectiveClasses := removeClasses s.perspectiveClasses [animateCls]
    pending := some Phase.closeP1 }

/-- The 400 ms close callback (lines 23–78): save both inline styles
(`attr('style') || ''`), write the transform-disabling styles, remove the
overlay-mode and rotation-armed classes, force the document scroll offset
to the snapshot, and schedule the 100 ms restore phase. -/
def closePhase1 (s : MenuState) : MenuState :=
  { s with
    savedPerspStyle := (s.perspStyle.getD "")
    savedContStyle := (s.contStyle.getD "")
    perspStyle := some (mergeCss (s.perspStyle.getD "") nuclearPerspStyle)
    contStyle := some (mergeCss (s.contStyle.getD "") nuclearContStyle)
    perspectiveClasses := removeClasses s.perspectiveClasses [modalviewCls, rotateCls]
    docScroll := s.storedScrollPosition
    pending := some Phase.closeP2 }

/-- The nested 100 ms close callback (lines 53–76): restore each saved
inline style (or remove the attribute when the saved string is empty),
re-read the scroll offset, and force it back to the snapshot when it
deviates by more than 10 px.  The browser may shift the scroll offset
when the 3D transforms are re-applied; `drift` is that shift. -/
def closePhase2 (drift : Int) (s : MenuState) : MenuState :=
  let pStyle : Option String :=
    if s.savedPerspStyle ≠ "" then some s.savedPerspStyle else none
  let cStyle : Option String :=
    if s.savedContStyle ≠ "" then some s.savedContStyle else none
  let finalScroll : Int := s.docScroll + drift
  let doc2 : Int :=
    if 10 < |finalScroll - s.storedScrollPosition| then s.storedScrollPosition
    else finalScroll
  { s with
    perspStyle := pStyle
    contStyle := cStyle
    docScroll := doc2
    isTransitioning := false
    pending := none }

/-- Function `openMenu` (lines 82–113): guard on `isTransitioning`; capture the
document scroll offset (`window.scrollY || window.pageYOffset ||
document.documentElement.scrollTop || 0`, a single value here); zero the
overlay scroll; reset then add the overlay-mode and rotation-armed
classes; schedule the 50 ms phase. -/
def openMenu (s : MenuState) : MenuState :=
  if s.isTransitioning then s else
  { s with
    isTransitioning := true
    isMenuOpen := true
    storedScrollPosition := s.docScroll
    modalScroll := 0
    perspectiveClasses :=
      addClasses
        (removeClasses s.perspectiveClasses
          [modalviewCls, rotateCls, animateCls, strayModalCls])
        [modalviewCls, rotateCls]
    pending := some Phase.openP1 }

/-- The 50 ms open callback (lines 97–112): add the rotation-animate class
and reveal the navigation; schedule the nested 100 ms phase. -/
def openPhase1 (s : MenuState) : MenuState :=
  { s with
    perspectiveClasses := addClasses s.perspectiveClasses [animateCls]
    navVis := true
    pending := some Phase.openP2 }

/-- The nested 100 ms open callback (lines 101–111): set the overlay's
scroll offset to the snapshot (`$('.perspective--modalview').scrollTop(p)`
is a no-op when the selector matches nothing); schedule the 200 ms
phase. -/
def openPhase2 (s : MenuState) : MenuState :=
  { s with
    modalScroll :=
      if s.perspectiveClasses.contains modalviewCls then s.storedScrollPosition
      else s.modalScroll
    pending := some Phase.openP3 }

/-- The nested 200 ms open callback (lines 107–110): run
`setupScrollEffects` (attach the scroll listener and schedule its 200 ms
initial pass) and mark the transition complete. -/
def openPhase3 (s : MenuState) : MenuState :=
  { s with
    scrollFxAttached := true
    fxPassPending := true
    isTransitioning := false
    pending := none }

/-- Dispatch a pending transition phase. -/
def firePhase (drift : Int) : Phase → MenuState → MenuState
  | Phase.openP1 => openPhase1
  | Phase.openP2 => openPhase2
  | Phase.openP3 => openPhase3
  | Phase.closeP1 => closePhase1
  | Phase.closeP2 => closePhase2 drift

/-- Elapse the outstanding transition timer, if any.  `drift` is the
environment scroll shift consumed by `closePhase2` (ignored by every
other phase). -/
def fire (drift : Int) (s : MenuState) : MenuState :=
  match s.pending with
  | none => s
  | some ph => firePhase drift ph s

/-- The 200 ms initial effect pass scheduled by `setupScrollEffects`
(lines 246–250): runs `triggerScrollEffects` and `triggerVideoEffects`,
which touch none of the controller/DOM fields modelled here. -/
def fireFxPass (s : MenuState) : MenuState :=
  if s.fxPassPending then
    { s with fxPassPending := false, effectsPassCount := s.effectsPassCount + 1 }
  else s

/-- The toggle click handler (lines 254–260): dispatch on whether the
container carries the rotation-animate class. -/
def toggle (s : MenuState) : MenuState :=
  if s.perspectiveClasses.contains animateCls then closeMenu s else openMenu s

/-- One user invocation of the widget's entry points. -/
inductive Inv where
  | toggle | openM | closeM
deriving DecidableEq, Repr

/-- Apply one invocation. -/
def applyInv (s : MenuState) : Inv → MenuState
  | Inv.toggle => toggle s
  | Inv.openM => openMenu s
  | Inv.closeM => closeMenu s

/-- Apply a sequence of invocations in order. -/
def applyInvs (invs : List Inv) (s : MenuState) : MenuState :=
  invs.foldl applyInv s

/-- A full open-then-close cycle with every scheduled phase fired:
`openMenu`, its three phases, `closeMenu`, its two phases.  `drift` is the
scroll shift the browser may apply when inline styles are restored. -/
def fullCycle (drift : Int) (s : MenuState) : MenuState :=
  fire drift (fire drift (closeMenu (fire drift (fire drift (fire drift (openMenu s))))))

/-- The page's initial DOM/controller state, from the bundled
`index.html` (`<div class="perspective effect-rotate-left">`, no inline
styles, nothing scheduled) and the initialization of `initGleckoMenu`. -/
def initialState (docScroll : Int) : MenuState :=
  { isMenuOpen := false
    isTransitioning := false
    storedScrollPosition := 0
    docScroll := docScroll
    modalScroll := 0
    perspectiveClasses := ["perspective", rotateCls]
    navVis := false
    perspStyle := none
    contStyle := none
    savedPerspStyle := ""
    savedContStyle := ""
    pending := none
    scrollFxAttached := false
    fxPassPending := false
    effectsPassCount := 0 }

/-- A state with a close transition in flight: its 400 ms callback is
still pending and the guard flag is set. -/
def inFlightState (docScroll : Int) : MenuState :=
  { initialState docScroll with
    isTransitioning := true
    pending := some Phase.closeP1 }

/-! ## `triggerScrollEffects` (lines 153–229)

The function saves the property descriptors of `window.scrollY`,
`window.pageYOffset` and `document.documentElement.scrollTop`, overrides
all three with the fixed overlay offset, invokes the three optional
external hooks — each guarded by a capability probe and wrapped in its
own `try`/`catch` whose handler only logs — and in a `finally` block
re-defines each property from its saved descriptor.  A descriptor slot is
modelled by `Desc`; a hook by a presence flag and a throws flag. -/

/-- One scroll-position property slot: either its original descriptor or
the fixed-value override installed by `triggerScrollEffects`. -/
inductive Desc where
  | original
  | overridden (v : Int)
deriving DecidableEq, Repr

/-- The three overridable scroll-position property slots. -/
structure Props where
  scrollY : Desc
  pageYOffset : Desc
  docScrollTop : Desc
deriving DecidableEq, Repr

/-- Availability and behaviour of the three optional external hooks:
`window.scrollFX` (function probe), `window.lazySizes.checkElems`
(truthiness probe), `window.universalParallax.refresh` (function probe).
A throws flag records that invoking the hook raises an error. -/
structure HookEnv where
  scrollFXPresent : Bool
  scrollFXThrows : Bool
  lazyPresent : Bool
  lazyThrows : Bool
  parallaxPresent : Bool
  parallaxThrows : Bool
deriving DecidableEq, Repr

/-- Mutable state threaded through one `triggerScrollEffects` run: the
three property slots, the ordered list of hooks invoked so far, and the
number of exceptions caught by the per-hook `catch` handlers. -/
structure FxState where
  props : Props
  calls : List String
  caught : Nat
deriving DecidableEq, Repr

/-- One guarded hook invocation: probe, invoke, and catch any error in
the hook's own `try`/`catch` (the `catch` only logs, so control always
continues to the next hook). -/
def runHook (present throws : Bool) (name : String) (st : FxState) : FxState :=
  if present then
    if throws then { st with calls := st.calls ++ [name], caught := st.caught + 1 }
    else { st with calls := st.calls ++ [name] }
  else st

/-- Running `triggerScrollEffects scrollTop` on property state `ps` under hook
environment `env`: save the three descriptors, install the fixed-value
overrides, run the three guarded hooks in source order, then (in the
`finally` block) re-define each property from its saved descriptor. -/
def triggerScrollEffects (env : HookEnv) (scrollTop : Int) (ps : Props) : FxState :=
  let saved := ps
  let st0 : FxState :=
    { props := { scrollY := Desc.overridden scrollTop
                 pageYOffset := Desc.overridden scrollTop
                 docScrollTop := Desc.overridden scrollTop }
      calls := []
      caught := 0 }
  let st1 := runHook env.scrollFXPresent env.scrollFXThrows "scrollFX" st0
  let st2 := runHook env.lazyPresent env.lazyThrows "lazySizes" st1
  let st3 := runHook env.parallaxPresent env.parallaxThrows "universalParallax" st2
  { st3 with props := saved }

/-! ## Scroll debounce (`setupScrollEffects`, lines 231–251)

The `scroll.effects` handler first checks `isMenuOpen` and returns when
the menu is closed; otherwise it cancels the element's pending debounce
timer (`clearTimeout(this.scrollTimeout)`) and schedules a new one 16 ms
out.  The timer's callback runs one effect refresh
(`triggerScrollEffects` then `triggerVideoEffects`).  We model virtual
time as `Nat` milliseconds; the debounce slot is `Option Nat` holding the
scheduled firing time. -/

/-- The body of the `scroll.effects` handler at delivery time `now`:
inert when the menu is not open, otherwise cancel-and-reschedule the
debounce timer to `now + 16`. -/
def scrollHandler (isMenuOpen : Bool) (now : Nat) (pending : Option Nat) :
    Option Nat :=
  if isMenuOpen then some (now + 16) else pending

/-- Deliver one scroll event at time `t` to state `(pending, fires)`:
a debounce timer whose firing time has arrived runs its refresh first
(incrementing `fires`), then the handler runs on the remaining timer
state. -/
def deliverScroll (isMenuOpen : Bool) (st : Option Nat × Nat) (t : Nat) :
    Option Nat × Nat :=
  let fires : Nat :=
    match st.1 with
    | some ft => if ft ≤ t then st.2 + 1 else st.2
    | none => st.2
  let remaining : Option Nat :=
    match st.1 with
    | some ft => if ft ≤ t then none else st.1
    | none => none
  (scrollHandler isMenuOpen t remaining, fires)

/-- Total number of effect refreshes produced by a burst of scroll events
at the given times while the menu is open, counting the firing of the
timer left pending after the burst once the quiet period elapses. -/
def totalFires (events : List Nat) : Nat :=
  let st := events.foldl (deliverScroll true) (none, 0)
  st.2 + (match st.1 with | some _ => 1 | none => 0)

/-- Two consecutive events fall inside one 16 ms quiet period: the later
one arrives no earlier, and before the earlier one's debounce timer
fires. -/
def within16 (a b : Nat) : Prop := a ≤ b ∧ b < a + 16

instance : DecidableRel within16 := fun a b =>
  inferInstanceAs (Decidable (a ≤ b ∧ b < a + 16))

/-! ## `triggerVideoEffects` (lines 116–151)

The pass iterates over every `scroll-fx`-tagged video or
`.video-bg-container`; for each it resolves the wrapping container and
the inner media element (`return` when there is none), computes the
element's band inside the scroll container's content
(`$videoContainer.offset().top - scrollContainer.offset().top +
containerScrollTop`, i.e. the element's static top within the scrolled
content), and compares it with the visible band.  In-viewport elements
get their deferred `data-src` assigned (once: the guard re-checks
`!videoElement.src`, and `src` is a URL-reflecting IDL attribute, so once
the attribute is set the getter returns a resolved, non-empty URL),
fade-in wrappers get the in-range class and opacity 1, and paused
autoplay elements get a `play()` attempt whose failure is swallowed.
Out-of-viewport fade-out wrappers get opacity 0. -/

/-- One tagged wrapper with its inner media element, as seen by the pass.
`hasVideo` is false when the tagged container holds no `video` element.
`staticTop` is the wrapper's top offset within the scroll container's
content; `outerHeight` its outer height.  `srcAttr` is the media
element's `src` content attribute (`none` = absent, in which case the
`.src` IDL getter is falsy); `dataSrc` its staged `data-src` attribute.
`playFails` records that `play()` rejects; `loadCount` / `playAttempts`
count `load()` calls and `play()` attempts. -/
structure Wrapper where
  hasVideo : Bool
  staticTop : Int
  outerHeight : Int
  dataSrc : Option String
  srcAttr : Option String
  fadeIn : Bool
  fadeOut : Bool
  inRange : Bool
  opacity : Option String
  autoplay : Bool
  paused : Bool
  playFails : Bool
  loadCount : Nat
  playAttempts : Nat
deriving DecidableEq, Repr

/-- The body of the `.each` callback of `triggerVideoEffects` for one
wrapper, given the container's current `scrollTop` and `height`. -/
def videoEffectStep (scrollTop height : Int) (w : Wrapper) : Wrapper :=
  if !w.hasVideo then w else
  let videoTop := w.staticTop
  let videoBottom := videoTop + w.outerHeight
  let inViewport := scrollTop < videoBottom ∧ videoTop < scrollTop + height
  if inViewport then
    let w1 :=
      match w.dataSrc, w.srcAttr with
      | some d, none => { w with srcAttr := some d, loadCount := w.loadCount + 1 }
      | _, _ => w
    let w2 :=
      if w1.fadeIn then { w1 with inRange := true, opacity := some "1" } else w1
    if w2.autoplay ∧ w2.paused then
      { w2 with
        playAttempts := w2.playAttempts + 1
        paused := if w2.playFails then w2.paused else false }
    else w2
  else
    if w.fadeOut then { w with opacity := some "0" } else w

/-- Function `triggerVideoEffects` over the list of tagged wrappers. -/
def triggerVideoEffects (scrollTop height : Int) (ws : List Wrapper) :
    List Wrapper :=
  ws.map (videoEffectStep scrollTop height)

/-- Run a sequence of passes, each with its own `(scrollTop, height)`
pair, over one wrapper. -/
def runPasses (passes : List (Int × Int)) (w : Wrapper) : Wrapper :=
  passes.foldl (fun w p => videoEffectStep p.1 p.2 w) w

/-! ## Helper lemmas -/

lemma mem_removeClasses {x : String} {cs rem : List String} :
    x ∈ removeClasses cs rem ↔ x ∈ cs ∧ x ∉ rem := by
  simp [removeClasses, List.mem_filter]

lemma not_mem_removeClasses {x : String} {cs rem : List String}
    (h : x ∈ rem) : x ∉ removeClasses cs rem := by
  intro hx
  exact (mem_removeClasses.mp hx).2 h

lemma addClass_of_not_mem {cs : List String} {c : String} (h : c ∉ cs) :
    addClass cs c = cs ++ [c] := by
  simp [addClass, h]

lemma removeClasses_append (xs ys rem : List String) :
    removeClasses (xs ++ ys) rem = removeClasses xs rem ++ removeClasses ys rem := by
  simp [removeClasses, List.filter_append]

lemma removeClasses_of_disjoint {cs rem : List String}
    (h : ∀ x ∈ cs, x ∉ rem) : removeClasses cs rem = cs := by
  unfold removeClasses
  rw [List.filter_eq_self]
  intro a ha
  simpa using h a ha

/-- The transition guard makes `openMenu` a no-op. -/
lemma openMenu_of_transitioning {s : MenuState} (h : s.isTransitioning = true) :
    openMenu s = s := by
  simp [openMenu, h]

/-- The transition guard makes `closeMenu` a no-op. -/
lemma closeMenu_of_transitioning {s : MenuState} (h : s.isTransitioning = true) :
    closeMenu s = s := by
  simp [closeMenu, h]

/-- The transition guard makes `toggle` a no-op. -/
lemma toggle_of_transitioning {s : MenuState} (h : s.isTransitioning = true) :
    toggle s = s := by
  unfold toggle
  split
  · exact closeMenu_of_transitioning h
  · exact openMenu_of_transitioning h

lemma applyInv_of_transitioning {s : MenuState} (h : s.isTransitioning = true)
    (i : Inv) : applyInv s i = s := by
  cases i
  · exact toggle_of_transitioning h
  · exact openMenu_of_transitioning h
  · exact closeMenu_of_transitioning h

lemma openClassList (cs : List String) :
    addClasses (removeClasses cs [modalviewCls, rotateCls, animateCls, strayModalCls])
        [modalviewCls, rotateCls] =
      removeClasses cs [modalviewCls, rotateCls, animateCls, strayModalCls] ++
        [modalviewCls, rotateCls] := by
  have hm : modalviewCls ∉
      removeClasses cs [modalviewCls, rotateCls, animateCls, strayModalCls] :=
    not_mem_removeClasses (by decide)
  have hr : rotateCls ∉
      removeClasses cs [modalviewCls, rotateCls, animateCls, strayModalCls] :=
    not_mem_removeClasses (by decide)
  unfold addClasses
  simp only [List.foldl_cons, List.foldl_nil]
  rw [addClass_of_not_mem hm, addClass_of_not_mem (by
    intro hx
    rcases List.mem_append.mp hx with hx | hx
    · exact hr hx
    · exact absurd hx (by decide))]
  simp

lemma animClassList (cs : List String) :
    addClasses
        (removeClasses cs [modalviewCls, rotateCls, animateCls, strayModalCls] ++
          [modalviewCls, rotateCls]) [animateCls] =
      removeClasses cs [modalviewCls, rotateCls, animateCls, strayModalCls] ++
        [modalviewCls, rotateCls, animateCls] := by
  have ha : animateCls ∉
      removeClasses cs [modalviewCls, rotateCls, animateCls, strayModalCls] :=
    not_mem_removeClasses (by decide)
  unfold addClasses
  simp only [List.foldl_cons, List.foldl_nil]
  rw [addClass_of_not_mem (by
    intro hx
    rcases List.mem_append.mp hx with hx | hx
    · exact ha hx
    · exact absurd hx (by decide))]
  simp

lemma closeClassList1 (cs : List String) :
    removeClasses
        (removeClasses cs [modalviewCls, rotateCls, animateCls, strayModalCls] ++
          [modalviewCls, rotateCls, animateCls]) [animateCls] =
      removeClasses cs [modalviewCls, rotateCls, animateCls, strayModalCls] ++
        [modalviewCls, rotateCls] := by
  rw [removeClasses_append]
  rw [removeClasses_of_disjoint (by
    intro x hx hmem
    apply (mem_removeClasses.mp hx).2
    simp only [List.mem_singleton] at hmem
    rw [hmem]
    decide)]
  congr 1

lemma closeClassList2 (cs : List String) :
    removeClasses
        (removeClasses cs [modalviewCls, rotateCls, animateCls, strayModalCls] ++
          [modalviewCls, rotateCls]) [modalviewCls, rotateCls] =
      removeClasses cs [modalviewCls, rotateCls, animateCls, strayModalCls] := by
  rw [removeClasses_append]
  rw [removeClasses_of_disjoint (by
    intro x hx hmem
    apply (mem_removeClasses.mp hx).2
    simp only [List.mem_cons, List.mem_singleton, List.not_mem_nil, or_false] at hmem
    rcases hmem with rfl | rfl
    · decide
    · decide)]
  have hnil :
      removeClasses [modalviewCls, rotateCls] [modalviewCls, rotateCls] =
        ([] : List String) := by decide
  rw [hnil, List.append_nil]

lemma contains_modalview_open (cs : List String) :
    (removeClasses cs [modalviewCls, rotateCls, animateCls, strayModalCls] ++
      [modalviewCls, rotateCls]).contains modalviewCls = true := by
  simp

lemma contains_modalview_anim (cs : List String) :
    (removeClasses cs [modalviewCls, rotateCls, animateCls, strayModalCls] ++
      [modalviewCls, rotateCls, animateCls]).contains modalviewCls = true := by
  simp

/-- One full open-then-close cycle, every phase fired, computed from an
arbitrary non-transitioning start state. -/
lemma fullCycle_spec (s : MenuState) (d : Int) (h : s.isTransitioning = false) :
    fullCycle d s = { s with
      isMenuOpen := false
      isTransitioning := false
      storedScrollPosition := s.docScroll
      docScroll := if 10 < |d| then s.docScroll else s.docScroll + d
      modalScroll := s.docScroll
      perspectiveClasses :=
        removeClasses s.perspectiveClasses
          [modalviewCls, rotateCls, animateCls, strayModalCls]
      navVis := false
      perspStyle :=
        if s.perspStyle.getD "" ≠ "" then some (s.perspStyle.getD "") else none
      contStyle :=
        if s.contStyle.getD "" ≠ "" then some (s.contStyle.getD "") else none
      savedPerspStyle := s.perspStyle.getD ""
      savedContStyle := s.contStyle.getD ""
      pending := none
      scrollFxAttached := false
      fxPassPending := true } := by
  simp only [fullCycle, openMenu, h, Bool.false_eq_true, if_false, fire, firePhase,
    openPhase1, openPhase2, openPhase3, closeMenu, closePhase1, closePhase2,
    openClassList, animClassList, closeClassList1, closeClassList2,
    contains_modalview_open, contains_modalview_anim, if_true,
    add_sub_cancel_left]

/-! ## Claim theorems -/

/-- C1.  Re-entrancy guard: while `isTransitioning` is true, every
sequence of toggle / open / close invocations leaves the controller and
DOM state — including the in-flight transition's pending timer —
completely unchanged, so exactly one transition runs to completion at a
time. -/
theorem reentrancy_mutual_exclusion (s : MenuState)
    (h : s.isTransitioning = true) (invs : List Inv) :
    applyInvs invs s = s := by
  induction invs with
  | nil => rfl
  | cons i is ih =>
      show (i :: is).foldl applyInv s = s
      rw [List.foldl_cons, applyInv_of_transitioning h i]
      exact ih

/-- Witness for C1 at a concrete in-flight state and invocation burst. -/
theorem reentrancy_mutual_exclusion_witness :
    (inFlightState 500).isTransitioning = true ∧
    applyInvs [Inv.openM, Inv.closeM, Inv.toggle] (inFlightState 500) =
      inFlightState 500 :=
  ⟨rfl, reentrancy_mutual_exclusion _ rfl [Inv.openM, Inv.closeM, Inv.toggle]⟩

/-- C2.  Scroll fidelity round-trip: from any idle state with document
scroll offset `S`, a full open-then-close cycle — all scheduled phases of
both transitions fired, the overlay never scrolled in between, the
browser shifting the offset by an arbitrary `d` when inline styles are
restored — leaves the document scroll offset within 10 px of `S`. -/
theorem scroll_fidelity_roundtrip (s : MenuState) (d : Int)
    (h : s.isTransitioning = false) (hp : s.pending = none) :
    |(fullCycle d s).docScroll - s.docScroll| ≤ 10 := by
  rw [fullCycle_spec s d h]
  by_cases hd : 10 < |d|
  · simp [hd]
  · simp only [hd, if_false]
    have : s.docScroll + d - s.docScroll = d := by ring
    rw [this]
    omega

/-- Witness for C2: initial offset 500, restore-step drift 7. -/
theorem scroll_fidelity_roundtrip_witness :
    (initialState 500).isTransitioning = false ∧
    (initialState 500).pending = none ∧
    |(fullCycle 7 (initialState 500)).docScroll - (initialState 500).docScroll| ≤ 10 :=
  ⟨rfl, rfl, scroll_fidelity_roundtrip (initialState 500) 7 rfl rfl⟩

/-- C4 (counterexample to the claim as stated).  On the page's initial
DOM state the container starts with class list
`["perspective", "effect-rotate-left"]`; after a full open+close cycle it
carries `["perspective"]` — the rotation-armed class the markup shipped
with is gone, so the class list does not equal the pre-open snapshot. -/
theorem state_roundtrip_counterexample :
    (fullCycle 0 (initialState 500)).perspectiveClasses = ["perspective"] ∧
    (initialState 500).perspectiveClasses = ["perspective", rotateCls] ∧
    (fullCycle 0 (initialState 500)).perspectiveClasses ≠
      (initialState 500).perspectiveClasses := by
  refine ⟨by decide, by decide, by decide⟩

/-- C4 (amended).  Starting from any idle state, a full open+close cycle
yields the Closed state — menu flag cleared, transition complete, no
pending timer — with the container carrying none of the overlay-mode,
rotation-armed or rotation-animate marker classes, and its class list
equal to the pre-open snapshot with those marker classes (and the stray
`modalview` name the code also strips) removed. -/
theorem state_roundtrip_amended (s : MenuState) (d : Int)
    (h : s.isTransitioning = false) (hp : s.pending = none) :
    (fullCycle d s).perspectiveClasses =
      removeClasses s.perspectiveClasses
        [modalviewCls, rotateCls, animateCls, strayModalCls] ∧
    modalviewCls ∉ (fullCycle d s).perspectiveClasses ∧
    rotateCls ∉ (fullCycle d s).perspectiveClasses ∧
    animateCls ∉ (fullCycle d s).perspectiveClasses ∧
    (fullCycle d s).isMenuOpen = false ∧
    (fullCycle d s).isTransitioning = false ∧
    (fullCycle d s).pending = none := by
  rw [fullCycle_spec s d h]
  refine ⟨rfl, ?_, ?_, ?_, rfl, rfl, rfl⟩
  · exact not_mem_removeClasses (by decide)
  · exact not_mem_removeClasses (by decide)
  · exact not_mem_removeClasses (by decide)

/-- Witness for C4's amended statement on the page's initial state. -/
theorem state_roundtrip_amended_witness :
    (initialState 500).isTransitioning = false ∧
    (initialState 500).pending = none ∧
    (fullCycle 3 (initialState 500)).perspectiveClasses =
      removeClasses (initialState 500).perspectiveClasses
        [modalviewCls, rotateCls, animateCls, strayModalCls] :=
  ⟨rfl, rfl, (state_roundtrip_amended (initialState 500) 3 rfl rfl).1⟩

/-- C7.  Close-phase drift correction: running the 400 ms strip phase and
then the 100 ms restore phase reapplies each element's original inline
style (or removes inline styling entirely when none existed), and even if
the browser shifts the scroll offset by an arbitrary `d` when the styles
come back, the resulting offset is within 10 px of the snapshot; when the
deviation exceeds 10 px the offset is forced back to the snapshot
exactly, and the transition is marked complete. -/
theorem close_drift_correction (s : MenuState) (d : Int) :
    (closePhase2 d (closePhase1 s)).perspStyle =
      (if s.perspStyle.getD "" ≠ "" then some (s.perspStyle.getD "") else none) ∧
    (closePhase2 d (closePhase1 s)).contStyle =
      (if s.contStyle.getD "" ≠ "" then some (s.contStyle.getD "") else none) ∧
    |(closePhase2 d (closePhase1 s)).docScroll - s.storedScrollPosition| ≤ 10 ∧
    (10 < |d| →
      (closePhase2 d (closePhase1 s)).docScroll = s.storedScrollPosition) ∧
    (closePhase2 d (closePhase1 s)).isTransitioning = false := by
  have habs : |s.storedScrollPosition + d - s.storedScrollPosition| = |d| := by
    congr 1
    ring
  refine ⟨by simp [closePhase1, closePhase2], by simp [closePhase1, closePhase2],
    ?_, ?_, by simp [closePhase1, closePhase2]⟩
  · simp only [closePhase1, closePhase2, habs]
    by_cases hd : 10 < |d|
    · simp [hd]
    · simp only [hd, if_false]
      rw [habs]
      omega
  · intro hd
    simp [closePhase1, closePhase2, habs, hd]

/-- Witness for C7 at drift 25 of the hypothesis-bearing conjunct. -/
theorem close_drift_correction_witness :
    (10 : Int) < |(25 : Int)| ∧
    (closePhase2 25 (closePhase1 (initialState 500))).docScroll =
      (initialState 500).storedScrollPosition :=
  ⟨by decide, (close_drift_correction (initialState 500) 25).2.2.2.1 (by decide)⟩

/-- C8.  Scroll listener inertness after close: a scroll event delivered
while the menu is not open leaves the debounce timer untouched (the
handler checks `isMenuOpen` at delivery time), and with no leftover
pending timer the delivery changes nothing — no new timer is scheduled
and no effect refresh fires. -/
theorem scroll_listener_inert_when_closed (now : Nat) (pending : Option Nat)
    (fires : Nat) :
    scrollHandler false now pending = pending ∧
    deliverScroll false (none, fires) now = (none, fires) := by
  constructor
  · simp [scrollHandler]
  · simp [deliverScroll, scrollHandler]

/-- C10.  A `scroll-fx`-tagged container with no inner `video` element is
skipped before any read or mutation: the pass leaves it completely
unchanged whatever the scroll offset and container height. -/
theorem no_media_wrapper_skipped (scrollTop height : Int) (w : Wrapper)
    (h : w.hasVideo = false) :
    videoEffectStep scrollTop height w = w := by
  simp [videoEffectStep, h]

/-- Witness for C10 at a concrete media-less wrapper overlapping the
visible band. -/
theorem no_media_wrapper_skipped_witness :
    ({ hasVideo := false, staticTop := 0, outerHeight := 100,
       dataSrc := some "clip.mp4", srcAttr := none, fadeIn := true,
       fadeOut := true, inRange := false, opacity := none, autoplay := true,
       paused := true, playFails := false, loadCount := 0,
       playAttempts := 0 } : Wrapper).hasVideo = false ∧
    videoEffectStep 0 300
      { hasVideo := false, staticTop := 0, outerHeight := 100,
        dataSrc := some "clip.mp4", srcAttr := none, fadeIn := true,
        fadeOut := true, inRange := false, opacity := none, autoplay := true,
        paused := true, playFails := false, loadCount := 0,
        playAttempts := 0 } =
      { hasVideo := false, staticTop := 0, outerHeight := 100,
        dataSrc := some "clip.mp4", srcAttr := none, fadeIn := true,
        fadeOut := true, inRange := false, opacity := none, autoplay := true,
        paused := true, playFails := false, loadCount := 0,
        playAttempts := 0 } :=
  ⟨rfl, no_media_wrapper_skipped 0 300 _ rfl⟩

lemma debounce_aux (rest : List Nat) :
    ∀ (t f : Nat), List.Chain' within16 (t :: rest) →
      rest.foldl (deliverScroll true) (some (t + 16), f) =
        (some (rest.getLastD t + 16), f) := by
  induction rest with
  | nil =>
      intro t f _
      simp
  | cons u us ih =>
      intro t f hch
      rw [List.chain'_cons] at hch
      obtain ⟨⟨hle, hlt⟩, hch2⟩ := hch
      have hcond : ¬ (t + 16 ≤ u) := by omega
      have hstep : deliverScroll true (some (t + 16), f) u = (some (u + 16), f) := by
        simp [deliverScroll, scrollHandler, hcond]
      rw [List.foldl_cons, hstep, ih u f hch2, List.getLastD_cons]

/-- C5.  Debounced effect refresh: a burst of scroll events on the open
overlay, each arriving within 16 ms of the previous one, produces exactly
one effect-refresh execution once the quiet period elapses — and each
event delivered before the pending debounce timer fires cancels it and
reschedules it 16 ms out without firing anything. -/
theorem debounced_single_refresh (t : Nat) (rest : List Nat)
    (hch : List.Chain' within16 (t :: rest)) :
    totalFires (t :: rest) = 1 ∧
    (∀ ft fires now : Nat, now < ft →
      deliverScroll true (some ft, fires) now = (some (now + 16), fires)) := by
  constructor
  · have h0 : deliverScroll true (none, 0) t = (some (t + 16), 0) := by
      simp [deliverScroll, scrollHandler]
    simp only [totalFires, List.foldl_cons, h0, debounce_aux rest t 0 hch]
  · intro ft fires now hlt
    have hcond : ¬ (ft ≤ now) := by omega
    simp [deliverScroll, scrollHandler, hcond]

/-- Witness for C5: five events 2 ms apart (the spec's test), one
refresh. -/
theorem debounced_single_refresh_witness :
    List.Chain' within16 [0, 2, 4, 6, 8] ∧ totalFires [0, 2, 4, 6, 8] = 1 :=
  ⟨by norm_num [List.chain'_cons, within16],
   (debounced_single_refresh 0 [2, 4, 6, 8]
     (by norm_num [List.chain'_cons, within16])).1⟩

/-- C3.  Hook isolation and non-leaking override: whatever combination of
the three external hooks is present and whichever of them throw, every
present hook is invoked during `triggerScrollEffects`, and the
scroll-position property slots are restored to their saved descriptors
when the invocation ends. -/
theorem hook_isolation_and_restore (env : HookEnv) (scrollTop : Int)
    (ps : Props) :
    (triggerScrollEffects env scrollTop ps).props = ps ∧
    (env.scrollFXPresent = true →
      "scrollFX" ∈ (triggerScrollEffects env scrollTop ps).calls) ∧
    (env.lazyPresent = true →
      "lazySizes" ∈ (triggerScrollEffects env scrollTop ps).calls) ∧
    (env.parallaxPresent = true →
      "universalParallax" ∈ (triggerScrollEffects env scrollTop ps).calls) := by
  obtain ⟨f1, f2, f3, f4, f5, f6⟩ := env
  cases f1 <;> cases f2 <;> cases f3 <;> cases f4 <;> cases f5 <;> cases f6 <;>
    simp [triggerScrollEffects, runHook]

/-- Witness for C3: all three hooks present, the lazy-load hook throwing;
the property slots are restored and the parallax hook is still called. -/
theorem hook_isolation_and_restore_witness :
    (triggerScrollEffects
        { scrollFXPresent := true, scrollFXThrows := false, lazyPresent := true,
          lazyThrows := true, parallaxPresent := true, parallaxThrows := false }
        42
        { scrollY := Desc.original, pageYOffset := Desc.original,
          docScrollTop := Desc.original }).props =
      { scrollY := Desc.original, pageYOffset := Desc.original,
        docScrollTop := Desc.original } ∧
    "universalParallax" ∈
      (triggerScrollEffects
        { scrollFXPresent := true, scrollFXThrows := false, lazyPresent := true,
          lazyThrows := true, parallaxPresent := true, parallaxThrows := false }
        42
        { scrollY := Desc.original, pageYOffset := Desc.original,
          docScrollTop := Desc.original }).calls :=
  ⟨(hook_isolation_and_restore _ 42 _).1,
   (hook_isolation_and_restore _ 42 _).2.2.2 rfl⟩

/-- C6.  Viewport intersection for media: a tagged wrapper whose band
`[staticTop, staticTop + outerHeight]` overlaps the visible band
`[scrollTop, scrollTop + height]` transitions to its visible/loaded
state — staged deferred source assigned (with a `load()` call), fade-in
wrappers marked in-range at opacity 1, paused autoplay media given a
`play()` attempt — while a wrapper whose band lies outside the visible
band keeps its source, in-range flag, pause state and play count
unchanged and is faded to opacity 0 exactly when it is tagged
fade-out-capable. -/
theorem viewport_intersection_media (scrollTop height : Int) (w : Wrapper)
    (hv : w.hasVideo = true) :
    (scrollTop < w.staticTop + w.outerHeight ∧ w.staticTop < scrollTop + height →
      (∀ dv, w.dataSrc = some dv → w.srcAttr = none →
        (videoEffectStep scrollTop height w).srcAttr = some dv ∧
        (videoEffectStep scrollTop height w).loadCount = w.loadCount + 1) ∧
      (w.fadeIn = true →
        (videoEffectStep scrollTop height w).inRange = true ∧
        (videoEffectStep scrollTop height w).opacity = some "1") ∧
      (w.autoplay = true → w.paused = true →
        (videoEffectStep scrollTop height w).playAttempts = w.playAttempts + 1)) ∧
    (w.staticTop + w.outerHeight ≤ scrollTop ∨ scrollTop + height ≤ w.staticTop →
      (videoEffectStep scrollTop height w).srcAttr = w.srcAttr ∧
      (videoEffectStep scrollTop height w).loadCount = w.loadCount ∧
      (videoEffectStep scrollTop height w).inRange = w.inRange ∧
      (videoEffectStep scrollTop height w).paused = w.paused ∧
      (videoEffectStep scrollTop height w).playAttempts = w.playAttempts ∧
      (w.fadeOut = true → (videoEffectStep scrollTop height w).opacity = some "0") ∧
      (w.fadeOut = false → (videoEffectStep scrollTop height w).opacity = w.opacity)) := by
  constructor
  · intro hin
    refine ⟨?_, ?_, ?_⟩
    · intro dv hdv hsa
      rcases w with ⟨hv', top, oh, ds, sa, fi, fo, ir, op, ap, pa, pf, lc, pat⟩
      simp only at hv hdv hsa hin
      subst hv hdv hsa
      cases fi <;> cases ap <;> cases pa <;>
        simp [videoEffectStep, hin.1, hin.2]
    · intro hfi
      rcases w with ⟨hv', top, oh, ds, sa, fi, fo, ir, op, ap, pa, pf, lc, pat⟩
      simp only at hv hfi hin
      subst hv hfi
      rcases ds with _ | dv <;> rcases sa with _ | sv <;> cases ap <;> cases pa <;>
        simp [videoEffectStep, hin.1, hin.2]
    · intro hap hpa
      rcases w with ⟨hv', top, oh, ds, sa, fi, fo, ir, op, ap, pa, pf, lc, pat⟩
      simp only at hv hap hpa hin
      subst hv hap hpa
      rcases ds with _ | dv <;> rcases sa with _ | sv <;> cases fi <;>
        simp [videoEffectStep, hin.1, hin.2]
  · intro hout
    have hniv : ¬ (scrollTop < w.staticTop + w.outerHeight ∧
        w.staticTop < scrollTop + height) := by
      rcases hout with hout | hout <;> omega
    rcases w with ⟨hv', top, oh, ds, sa, fi, fo, ir, op, ap, pa, pf, lc, pat⟩
    simp only at hv hniv
    subst hv
    cases fo <;> simp [videoEffectStep, hniv]

/-- Witness for C6: a wrapper whose band `[0, 100]` overlaps the visible
band `[0, 300]`, carrying a staged source, fade-in tag and paused
autoplay media. -/
theorem viewport_intersection_media_witness :
    (0 : Int) < 0 + 100 ∧ (0 : Int) < 0 + 300 ∧
    (videoEffectStep 0 300
      { hasVideo := true, staticTop := 0, outerHeight := 100,
        dataSrc := some "clip.mp4", srcAttr := none, fadeIn := true,
        fadeOut := false, inRange := false, opacity := none, autoplay := true,
        paused := true, playFails := false, loadCount := 0,
        playAttempts := 0 }).srcAttr = some "clip.mp4" :=
  ⟨by decide, by decide,
   ((viewport_intersection_media 0 300
      { hasVideo := true, staticTop := 0, outerHeight := 100,
        dataSrc := some "clip.mp4", srcAttr := none, fadeIn := true,
        fadeOut := false, inRange := false, opacity := none, autoplay := true,
        paused := true, playFails := false, loadCount := 0,
        playAttempts := 0 } rfl).1 ⟨by decide, by decide⟩ |>.1 "clip.mp4" rfl rfl).1⟩

lemma step_preserves_some (scrollTop height : Int) {w : Wrapper} {v : String}
    (hs : w.srcAttr = some v) :
    (videoEffectStep scrollTop height w).srcAttr = some v ∧
    (videoEffectStep scrollTop height w).loadCount = w.loadCount := by
  rcases w with ⟨hv', top, oh, ds, sa, fi, fo, ir, op, ap, pa, pf, lc, pat⟩
  simp only at hs
  subst hs
  cases hv' <;> rcases ds with _ | dv <;> cases fi <;> cases ap <;> cases pa <;>
    simp [videoEffectStep] <;> split_ifs <;> simp

lemma step_none_cases (scrollTop height : Int) (w : Wrapper)
    (hs : w.srcAttr = none) :
    ((videoEffectStep scrollTop height w).srcAttr = none ∧
      (videoEffectStep scrollTop height w).loadCount = w.loadCount) ∨
    (∃ dv, w.dataSrc = some dv ∧
      (videoEffectStep scrollTop height w).srcAttr = some dv ∧
      (videoEffectStep scrollTop height w).loadCount = w.loadCount + 1) := by
  rcases w with ⟨hv', top, oh, ds, sa, fi, fo, ir, op, ap, pa, pf, lc, pat⟩
  simp only at hs
  subst hs
  cases hv' <;> rcases ds with _ | dv <;> cases fi <;> cases ap <;> cases pa <;>
    simp [videoEffectStep] <;> split_ifs <;> simp

lemma runPasses_some (passes : List (Int × Int)) :
    ∀ (w : Wrapper) (v : String), w.srcAttr = some v →
      (runPasses passes w).srcAttr = some v ∧
      (runPasses passes w).loadCount = w.loadCount := by
  induction passes with
  | nil =>
      intro w v hs
      exact ⟨hs, rfl⟩
  | cons p ps ih =>
      intro w v hs
      have h1 := step_preserves_some p.1 p.2 hs
      have h2 := ih (videoEffectStep p.1 p.2 w) v h1.1
      unfold runPasses at h2 ⊢
      rw [List.foldl_cons]
      exact ⟨h2.1, by rw [h2.2, h1.2]⟩

/-- C9.  Deferred media source assignment is idempotent: across any
sequence of passes the `load()` counter grows by at most one, and once
the element's `src` attribute is set (so its IDL getter reflects a
non-empty resolved URL) every further pass leaves the source and the
`load()` counter unchanged. -/
theorem deferred_src_idempotent (passes : List (Int × Int)) (w : Wrapper) :
    (runPasses passes w).loadCount ≤ w.loadCount + 1 ∧
    (∀ v, w.srcAttr = some v →
      (runPasses passes w).srcAttr = some v ∧
      (runPasses passes w).loadCount = w.loadCount) := by
  constructor
  · induction passes generalizing w with
    | nil =>
        simp [runPasses]
    | cons p ps ih =>
        rcases hs : w.srcAttr with _ | v
        · rcases step_none_cases p.1 p.2 w hs with ⟨-, h2⟩ | ⟨dv, -, h1, h2⟩
          · have h3 := ih (videoEffectStep p.1 p.2 w)
            unfold runPasses at h3 ⊢
            rw [List.foldl_cons]
            omega
          · have h3 := runPasses_some ps (videoEffectStep p.1 p.2 w) dv h1
            unfold runPasses at h3 ⊢
            rw [List.foldl_cons]
            omega
        · have h3 := runPasses_some (p :: ps) w v hs
          rw [h3.2]
          omega
  · intro v hs
    exact runPasses_some passes w v hs

/-- Witness for C9: the source already assigned, two further in-viewport
passes change nothing. -/
theorem deferred_src_idempotent_witness :
    ({ hasVideo := true, staticTop := 0, outerHeight := 100,
       dataSrc := some "clip.mp4", srcAttr := some "clip.mp4", fadeIn := false,
       fadeOut := false, inRange := false, opacity := none, autoplay := false,
       paused := false, playFails := false, loadCount := 1,
       playAttempts := 0 } : Wrapper).srcAttr = some "clip.mp4" ∧
    (runPasses [(0, 300), (50, 300)]
      { hasVideo := true, staticTop := 0, outerHeight := 100,
        dataSrc := some "clip.mp4", srcAttr := some "clip.mp4", fadeIn := false,
        fadeOut := false, inRange := false, opacity := none, autoplay := false,
        paused := false, playFails := false, loadCount := 1,
        playAttempts := 0 }).srcAttr = some "clip.mp4" ∧
    (runPasses [(0, 300), (50, 300)]
      { hasVideo := true, staticTop := 0, outerHeight := 100,
        dataSrc := some "clip.mp4", srcAttr := some "clip.mp4", fadeIn := false,
        fadeOut := false, inRange := false, opacity := none, autoplay := false,
        paused := false, playFails := false, loadCount := 1,
        playAttempts := 0 }).loadCount = 1 :=
  ⟨rfl,
   ((deferred_src_idempotent [(0, 300), (50, 300)] _).2 "clip.mp4" rfl).1,
   ((deferred_src_idempotent [(0, 300), (50, 300)] _).2 "clip.mp4" rfl).2⟩

end GleckoMenu
